import Mathlib

/-!
Verification of the DhanVyapar-AI loan recommendation front-end and its
loan-lender matching / eligibility-scoring engine.

Source-derived definitions embed `src/frontend/src/pages/LoanRecommendations.tsx`
(the mock recommendation data, the fetch operation, the UI filters, and the
apply-button gating).  The scoring engine itself (classify, EMI amortization,
match scoring, batch recommendation) is not present in the repository source;
those definitions are modelled from the specification, each marked as such.
Rationals stand in for the TypeScript floating-point numbers, so all the
arithmetic here is exact.
-/

/-- Tri-state eligibility verdict, `'eligible' | 'partially_eligible' | 'not_eligible'`
in the TypeScript union. -/
inductive Verdict where
  | eligible
  | partiallyEligible
  | notEligible
deriving DecidableEq, Repr

/-- Lender eligibility criteria, from the `eligibilityCriteria` object literal shape in
`LoanRecommendations.tsx` (minCreditScore, minMonthlyIncome, maxAge, employmentTypes). -/
structure EligibilityCriteria where
  minCreditScore : ℤ
  minMonthlyIncome : ℚ
  maxAge : ℤ
  employmentTypes : List String
deriving DecidableEq, Repr

/-- A lender offer, from the `lender` object literal shape in `LoanRecommendations.tsx`. -/
structure Lender where
  id : String
  name : String
  type : String
  logo : String
  interestRate : ℚ
  minAmount : ℚ
  maxAmount : ℚ
  maxTerm : ℕ
  processingFee : ℚ
  eligibilityCriteria : EligibilityCriteria
  features : List String
  rating : ℚ
  reviewCount : ℕ
  processingTime : String
deriving DecidableEq, Repr

/-- One UI recommendation, the `LoanRecommendation` shape consumed by
`LoanRecommendations.tsx`. -/
structure LoanRecommendation where
  lender : Lender
  matchScore : ℤ
  eligibilityStatus : Verdict
  reasons : List String
  estimatedEMI : ℚ
  totalInterest : ℚ
deriving DecidableEq, Repr

/-- A submitted loan application, the fields of `LoanApplication` the page reads
(amount, term, purpose, creditScore). -/
structure LoanApplication where
  amount : ℚ
  term : ℕ
  purpose : String
  creditScore : ℤ
deriving DecidableEq, Repr

/-- The hard-coded `mockRecommendations` array of `LoanRecommendations.tsx`
(lines 49-162), transcribed field by field. -/
def mockRecommendations : List LoanRecommendation :=
  [ { lender :=
        { id := "1"
          name := "State Bank of India"
          type := "bank"
          logo := "🏦"
          interestRate := 8.5
          minAmount := 50000
          maxAmount := 1000000
          maxTerm := 60
          processingFee := 1.5
          eligibilityCriteria :=
            { minCreditScore := 650
              minMonthlyIncome := 25000
              maxAge := 65
              employmentTypes := ["salaried", "self-employed"] }
          features := ["Flexible EMI", "Quick Approval", "No Prepayment Charges"]
          rating := 4.2
          reviewCount := 1250
          processingTime := "3-5 days" }
      matchScore := 92
      eligibilityStatus := Verdict.eligible
      reasons := ["Credit score matches requirement", "Income sufficient",
                  "Loan amount within limit"]
      estimatedEMI := 12458
      totalInterest := 148960 },
    { lender :=
        { id := "2"
          name := "HDFC Bank"
          type := "bank"
          logo := "🏛️"
          interestRate := 9.2
          minAmount := 100000
          maxAmount := 2000000
          maxTerm := 72
          processingFee := 2.0
          eligibilityCriteria :=
            { minCreditScore := 700
              minMonthlyIncome := 30000
              maxAge := 60
              employmentTypes := ["salaried"] }
          features := ["Digital Process", "Instant Approval", "Doorstep Service"]
          rating := 4.5
          reviewCount := 2100
          processingTime := "1-2 days" }
      matchScore := 85
      eligibilityStatus := Verdict.eligible
      reasons := ["High credit score advantage", "Premium banking customer",
                  "Quick processing"]
      estimatedEMI := 13250
      totalInterest := 165000 },
    { lender :=
        { id := "3"
          name := "Bajaj Finserv"
          type := "nbfc"
          logo := "💰"
          interestRate := 11.5
          minAmount := 25000
          maxAmount := 500000
          maxTerm := 48
          processingFee := 2.5
          eligibilityCriteria :=
            { minCreditScore := 600
              minMonthlyIncome := 20000
              maxAge := 70
              employmentTypes := ["salaried", "self-employed", "business"] }
          features := ["Instant Approval", "Minimal Documentation", "Flexible Tenure"]
          rating := 4.0
          reviewCount := 890
          processingTime := "2-4 hours" }
      matchScore := 78
      eligibilityStatus := Verdict.eligible
      reasons := ["Fast processing", "Low documentation", "Flexible criteria"]
      estimatedEMI := 15123
      totalInterest := 225840 },
    { lender :=
        { id := "4"
          name := "Mahindra Finance"
          type := "nbfc"
          logo := "🚜"
          interestRate := 12.8
          minAmount := 20000
          maxAmount := 300000
          maxTerm := 36
          processingFee := 3.0
          eligibilityCriteria :=
            { minCreditScore := 550
              minMonthlyIncome := 15000
              maxAge := 65
              employmentTypes := ["salaried", "self-employed", "agriculture"] }
          features := ["Rural Focus", "Agriculture Loans", "Easy Approval"]
          rating := 3.8
          reviewCount := 450
          processingTime := "1-3 days" }
      matchScore := 65
      eligibilityStatus := Verdict.partiallyEligible
      reasons := ["Higher interest rate", "Suitable for rural areas",
                  "Lower amount limit"]
      estimatedEMI := 16890
      totalInterest := 208040 } ]

/-- The `fetchRecommendations` operation of `LoanRecommendations.tsx` (lines 41-171):
after the simulated delay it sets the recommendation list to `mockRecommendations`
regardless of the submitted loan application. -/
def fetchRecommendations (_app : LoanApplication) : List LoanRecommendation :=
  mockRecommendations

/-- The three UI filter selections (`selectedFilter` state of the page). -/
inductive SelectedFilter where
  | all
  | eligible
  | topRated
deriving DecidableEq, Repr

/-- The per-recommendation predicate inside `filteredRecommendations`
(lines 202-211): `eligible` keeps status `'eligible'`, `top_rated` keeps
`lender.rating >= 4.0`, the default keeps everything. -/
def filterKeeps (f : SelectedFilter) (rec : LoanRecommendation) : Bool :=
  match f with
  | SelectedFilter.eligible => rec.eligibilityStatus = Verdict.eligible
  | SelectedFilter.topRated => (4 : ℚ) ≤ rec.lender.rating
  | SelectedFilter.all => true

/-- The `filteredRecommendations` computation of `LoanRecommendations.tsx`
(lines 202-211). -/
def filteredRecommendations (f : SelectedFilter) (recs : List LoanRecommendation) :
    List LoanRecommendation :=
  recs.filter (filterKeeps f)

/-- The `disabled` prop of the apply-to-lender button (line 399):
`recommendation.eligibilityStatus === 'not_eligible'`. -/
def applyDisabled (rec : LoanRecommendation) : Bool :=
  rec.eligibilityStatus = Verdict.notEligible

/-- Bool check that a list of integers is non-increasing. -/
def nonIncreasing : List ℤ → Bool
  | [] => true
  | [_] => true
  | a :: b :: t => decide (b ≤ a) && nonIncreasing (b :: t)

/-- Modelled from the spec: the `BorrowerProfile` input of the matching engine
(section 3 of the spec); the engine itself is absent from the repository source. -/
structure BorrowerProfile where
  creditScore : ℤ
  monthlyIncome : ℚ
  age : ℤ
  employmentType : String
  requestedAmount : ℚ
  requestedTermMonths : ℕ
  purpose : String
deriving DecidableEq, Repr

/-- Modelled from the spec: structured reason entries for the classifier's
human-readable explanations (spec section 4.1, reasons generation); the reasons
generator is absent from the repository source.  Each constructor is one of the
specific sentences: a pass sentence per predicate (the credit one carrying the
margin in points) and a blocking sentence per failed predicate or range check. -/
inductive Reason where
  | creditPass (marginPoints : ℤ)
  | creditFail
  | incomePass
  | incomeFail
  | agePass
  | ageFail
  | employmentPass
  | employmentFail
  | amountOutOfRange
  | termExceedsMax
deriving DecidableEq, Repr

/-- Whether a reason entry is a blocking factor (as opposed to a positive reason). -/
def Reason.isBlocking : Reason → Bool
  | Reason.creditFail => true
  | Reason.incomeFail => true
  | Reason.ageFail => true
  | Reason.employmentFail => true
  | Reason.amountOutOfRange => true
  | Reason.termExceedsMax => true
  | _ => false

/-- Modelled from the spec: eligibility predicate 1 of section 4.1,
creditScore >= offer minCreditScore; the classifier is absent from the source. -/
def predCredit (p : BorrowerProfile) (o : Lender) : Bool :=
  o.eligibilityCriteria.minCreditScore ≤ p.creditScore

/-- Modelled from the spec: eligibility predicate 2 of section 4.1,
monthlyIncome >= offer minMonthlyIncome. -/
def predIncome (p : BorrowerProfile) (o : Lender) : Bool :=
  o.eligibilityCriteria.minMonthlyIncome ≤ p.monthlyIncome

/-- Modelled from the spec: eligibility predicate 3 of section 4.1,
age <= offer maxAge. -/
def predAge (p : BorrowerProfile) (o : Lender) : Bool :=
  p.age ≤ o.eligibilityCriteria.maxAge

/-- Modelled from the spec: eligibility predicate 4 of section 4.1,
employmentType in offer allowedEmploymentTypes. -/
def predEmployment (p : BorrowerProfile) (o : Lender) : Bool :=
  o.eligibilityCriteria.employmentTypes.contains p.employmentType

/-- Modelled from the spec: requestedAmount within [minAmount, maxAmount]
(an eligibility factor, not a hard filter; spec section 3 invariants). -/
def amountInRange (p : BorrowerProfile) (o : Lender) : Bool :=
  decide (o.minAmount ≤ p.requestedAmount) && decide (p.requestedAmount ≤ o.maxAmount)

/-- Modelled from the spec: requestedTermMonths <= offer maxTermMonths. -/
def termOk (p : BorrowerProfile) (o : Lender) : Bool :=
  p.requestedTermMonths ≤ o.maxTerm

/-- Modelled from the spec: the number of the four eligibility predicates that fail
(spec section 4.1 classification policy). -/
def failCount (p : BorrowerProfile) (o : Lender) : ℕ :=
  (if predCredit p o then 0 else 1) + (if predIncome p o then 0 else 1) +
    (if predAge p o then 0 else 1) + (if predEmployment p o then 0 else 1)

/-- Modelled from the spec: the tri-state verdict of the classifier
(spec section 4.1): all four predicates plus amount/term range give `eligible`;
zero predicate failures with amount or term out of range, or 1-2 predicate
failures, give `partially_eligible`; 3-4 failures give `not_eligible`.
The classifier is absent from the repository source. -/
def classifyVerdict (p : BorrowerProfile) (o : Lender) : Verdict :=
  if failCount p o = 0 then
    if amountInRange p o && termOk p o then Verdict.eligible
    else Verdict.partiallyEligible
  else if failCount p o ≤ 2 then Verdict.partiallyEligible
  else Verdict.notEligible

/-- Modelled from the spec: the reasons list of the classifier (spec section 4.1):
for each predicate a positive sentence when it passes and a blocking sentence when
it fails, plus blocking sentences for an out-of-range amount or term. -/
def reasonsFor (p : BorrowerProfile) (o : Lender) : List Reason :=
  (if predCredit p o then
     [Reason.creditPass (p.creditScore - o.eligibilityCriteria.minCreditScore)]
   else [Reason.creditFail]) ++
  (if predIncome p o then [Reason.incomePass] else [Reason.incomeFail]) ++
  (if predAge p o then [Reason.agePass] else [Reason.ageFail]) ++
  (if predEmployment p o then [Reason.employmentPass] else [Reason.employmentFail]) ++
  (if amountInRange p o then [] else [Reason.amountOutOfRange]) ++
  (if termOk p o then [] else [Reason.termExceedsMax])

/-- Modelled from the spec: `classify(profile, offer) -> (verdict, reasons)`
(spec section 4.1 contract); absent from the repository source. -/
def classify (p : BorrowerProfile) (o : Lender) : Verdict × List Reason :=
  (classifyVerdict p o, reasonsFor p o)

/-- Modelled from the spec: monthly interest rate,
`interestRateAnnualPercent / 12 / 100` (spec section 4.2). -/
def monthlyRate (o : Lender) : ℚ :=
  o.interestRate / 12 / 100

/-- Modelled from the spec: reducing-balance EMI (spec section 4.2):
`P * r * (1+r)^n / ((1+r)^n - 1)` when r > 0, `P / n` when r = 0.
The amortization engine is absent from the repository source. -/
def emi (P : ℚ) (r : ℚ) (n : ℕ) : ℚ :=
  if r = 0 then P / n
  else P * r * (1 + r) ^ n / ((1 + r) ^ n - 1)

/-- Modelled from the spec: `totalInterest = EMI * n - requestedAmount`, floored
at 0 (spec section 4.2). -/
def totalInterestOf (P : ℚ) (r : ℚ) (n : ℕ) : ℚ :=
  max 0 (emi P r n * n - P)

/-- Modelled from the spec: the eligibility base points of the match score
(spec section 4.2): eligible 60, partially_eligible 35, not_eligible 10. -/
def baseScore : Verdict → ℚ
  | Verdict.eligible => 60
  | Verdict.partiallyEligible => 35
  | Verdict.notEligible => 10

/-- Modelled from the spec: rate-competitiveness points (spec section 4.2): up to
+20, the batch's best (minimum) rate gets the full 20, linearly scaled down with
floor 0; the linear scale against the batch maximum is a modelling choice where
the spec leaves the slope open. -/
def ratePoints (rate minRate maxRate : ℚ) : ℚ :=
  if maxRate = minRate then 20
  else max 0 (20 * (maxRate - rate) / (maxRate - minRate))

/-- Modelled from the spec: amount/term fit points (spec section 4.2): +5 when both
requestedAmount and requestedTermMonths are within the offer's ranges, else 0. -/
def fitPoints (p : BorrowerProfile) (o : Lender) : ℚ :=
  if amountInRange p o && termOk p o then 5 else 0

/-- Modelled from the spec: the raw weighted match score before clamping
(spec section 4.2): eligibility base + rate competitiveness + rating/5*15 + fit. -/
def rawScore (p : BorrowerProfile) (o : Lender) (minRate maxRate : ℚ) : ℚ :=
  baseScore (classifyVerdict p o) + ratePoints o.interestRate minRate maxRate +
    o.rating / 5 * 15 + fitPoints p o

/-- Modelled from the spec: clamp the raw score to [0, 100] and round to the
nearest integer (spec section 4.2). -/
def matchScoreOf (p : BorrowerProfile) (o : Lender) (minRate maxRate : ℚ) : ℤ :=
  round (min 100 (max 0 (rawScore p o minRate maxRate)))

/-- Modelled from the spec: one engine output record (spec section 3,
`Recommendation`); absent from the repository source. -/
structure Recommendation where
  lender : Lender
  matchScore : ℤ
  eligibilityStatus : Verdict
  reasons : List Reason
  estimatedEMI : ℚ
  totalInterest : ℚ
deriving DecidableEq, Repr

/-- Modelled from the spec: `score(profile, offer) -> Recommendation`
(spec section 4.2 contract), scored against the batch statistics minRate/maxRate
gathered in pass 1. -/
def scoreOne (p : BorrowerProfile) (minRate maxRate : ℚ) (o : Lender) :
    Recommendation :=
  { lender := o
    matchScore := matchScoreOf p o minRate maxRate
    eligibilityStatus := classifyVerdict p o
    reasons := reasonsFor p o
    estimatedEMI := emi p.requestedAmount (monthlyRate o) p.requestedTermMonths
    totalInterest := totalInterestOf p.requestedAmount (monthlyRate o)
      p.requestedTermMonths }

/-- Modelled from the spec: the engine's failure taxonomy (spec section 7). -/
inductive EngineError where
  | EmptyCatalogue
  | InvalidProfile
  | InvalidOffer
deriving DecidableEq, Repr

/-- Modelled from the spec: profile validation (spec sections 4.1 and 7):
numeric fields must not be negative, and strictly positive where required. -/
def validProfile (p : BorrowerProfile) : Bool :=
  decide (0 < p.creditScore) && decide (0 ≤ p.monthlyIncome) && decide (0 < p.age) &&
    decide (0 < p.requestedAmount) && decide (0 < p.requestedTermMonths)

/-- Modelled from the spec: offer validation (spec sections 4.1 and 7):
minAmount <= maxAmount and no negative eligibility fields. -/
def validOffer (o : Lender) : Bool :=
  decide (o.minAmount ≤ o.maxAmount) && decide (0 ≤ o.eligibilityCriteria.minCreditScore) &&
    decide (0 ≤ o.eligibilityCriteria.minMonthlyIncome) &&
    decide (0 ≤ o.eligibilityCriteria.maxAge)

/-- Modelled from the spec: the minimum annual rate over a batch (pass 1 of the
two-pass scoring, spec section 4.2). -/
def minRateOf : List Lender → ℚ
  | [] => 0
  | o :: t => t.foldl (fun m x => min m x.interestRate) o.interestRate

/-- Modelled from the spec: the maximum annual rate over a batch (pass 1 batch
statistics, spec section 4.2). -/
def maxRateOf : List Lender → ℚ
  | [] => 0
  | o :: t => t.foldl (fun m x => max m x.interestRate) o.interestRate

/-- Modelled from the spec: the deterministic sort order of section 4.2: descending
matchScore, tie-break ascending interest rate, then descending rating, then offer id. -/
def recBefore (a b : Recommendation) : Bool :=
  decide (b.matchScore < a.matchScore) ||
    (decide (a.matchScore = b.matchScore) &&
      (decide (a.lender.interestRate < b.lender.interestRate) ||
        (decide (a.lender.interestRate = b.lender.interestRate) &&
          (decide (b.lender.rating < a.lender.rating) ||
            (decide (a.lender.rating = b.lender.rating) &&
              decide (a.lender.id ≤ b.lender.id))))))

/-- Modelled from the spec: the full recommendation operation (spec sections 4.2
and 7): validate, gather batch statistics, score each offer, sort descending by
match score; fails with `EmptyCatalogue` on an empty candidate offer list and
with `InvalidProfile`/`InvalidOffer` on malformed input, never returning a
default recommendation.  Absent from the repository source. -/
def recommend (p : BorrowerProfile) (offers : List Lender) :
    Except EngineError (List Recommendation) :=
  if offers.isEmpty then Except.error EngineError.EmptyCatalogue
  else if ¬ validProfile p then Except.error EngineError.InvalidProfile
  else if offers.any (fun o => ¬ validOffer o) then Except.error EngineError.InvalidOffer
  else
    let minRate := minRateOf offers
    let maxRate := maxRateOf offers
    Except.ok (List.insertionSort (fun a b => recBefore a b = true)
      (offers.map (scoreOne p minRate maxRate)))

/-- The borrower profile of spec section 8, Example 1. -/
def exProfile1 : BorrowerProfile :=
  { creditScore := 720
    monthlyIncome := 30000
    age := 35
    employmentType := "salaried"
    requestedAmount := 500000
    requestedTermMonths := 36
    purpose := "" }

/-- The offer of spec section 8, Example 1 (the State Bank of India mock lender,
whose criteria the example quotes). -/
def exOffer1 : Lender :=
  { id := "1"
    name := "State Bank of India"
    type := "bank"
    logo := "🏦"
    interestRate := 8.5
    minAmount := 50000
    maxAmount := 1000000
    maxTerm := 60
    processingFee := 1.5
    eligibilityCriteria :=
      { minCreditScore := 650
        minMonthlyIncome := 25000
        maxAge := 65
        employmentTypes := ["salaried", "self-employed"] }
    features := ["Flexible EMI", "Quick Approval", "No Prepayment Charges"]
    rating := 4.2
    reviewCount := 1250
    processingTime := "3-5 days" }

/-- The borrower profile of spec section 8, Example 2. -/
def exProfile2 : BorrowerProfile :=
  { creditScore := 600
    monthlyIncome := 18000
    age := 35
    employmentType := "business"
    requestedAmount := 200000
    requestedTermMonths := 24
    purpose := "" }

/-- The offer of spec section 8, Example 2 (the HDFC Bank mock lender, whose
criteria the example quotes). -/
def exOffer2 : Lender :=
  { id := "2"
    name := "HDFC Bank"
    type := "bank"
    logo := "🏛️"
    interestRate := 9.2
    minAmount := 100000
    maxAmount := 2000000
    maxTerm := 72
    processingFee := 2.0
    eligibilityCriteria :=
      { minCreditScore := 700
        minMonthlyIncome := 30000
        maxAge := 60
        employmentTypes := ["salaried"] }
    features := ["Digital Process", "Instant Approval", "Doorstep Service"]
    rating := 4.5
    reviewCount := 2100
    processingTime := "1-2 days" }

/-- The engine output for Example 1, scored in a singleton batch. -/
def exRec1 : Recommendation :=
  scoreOne exProfile1 (minRateOf [exOffer1]) (maxRateOf [exOffer1]) exOffer1

/-- C1: every recommendation sequence returned to the caller for a loan request
has monotonically non-increasing matchScore values. -/
theorem fetch_matchScore_nonIncreasing (app : LoanApplication) :
    nonIncreasing ((fetchRecommendations app).map (fun r => r.matchScore)) = true := by
  rfl

/-- C2: on an empty candidate lender-offer list the recommendation operation fails
with `EmptyCatalogue` and returns no recommendations, never a default one. -/
theorem recommend_empty_catalogue (p : BorrowerProfile) :
    recommend p [] = Except.error EngineError.EmptyCatalogue := by
  rfl

/-- C6: the eligibility classification is deterministic: two invocations of
`classify` with identical inputs produce identical verdicts and identical
reason lists. -/
theorem classify_deterministic (p₁ p₂ : BorrowerProfile) (o₁ o₂ : Lender)
    (hp : p₁ = p₂) (ho : o₁ = o₂) :
    (classify p₁ o₁).1 = (classify p₂ o₂).1 ∧
      (classify p₁ o₁).2 = (classify p₂ o₂).2 := by
  subst hp; subst ho; exact ⟨rfl, rfl⟩

/-- Witness for C6 at the Example 2 inputs. -/
theorem classify_deterministic_witness :
    exProfile2 = exProfile2 ∧ exOffer2 = exOffer2 ∧
      ((classify exProfile2 exOffer2).1 = (classify exProfile2 exOffer2).1 ∧
        (classify exProfile2 exOffer2).2 = (classify exProfile2 exOffer2).2) :=
  ⟨rfl, rfl, classify_deterministic exProfile2 exProfile2 exOffer2 exOffer2 rfl rfl⟩

/-- C7: the UI filters depend only on `eligibilityStatus` and `lender.rating`:
`all` keeps everything, `eligible` keeps exactly the recommendations whose status
is eligible, and `top_rated` membership is decided by the lender rating alone. -/
theorem filteredRecommendations_spec (recs : List LoanRecommendation) :
    filteredRecommendations SelectedFilter.all recs = recs ∧
      (∀ r, r ∈ filteredRecommendations SelectedFilter.eligible recs ↔
        r ∈ recs ∧ r.eligibilityStatus = Verdict.eligible) ∧
      (∀ r, r ∈ filteredRecommendations SelectedFilter.topRated recs ↔
        r ∈ recs ∧ (4 : ℚ) ≤ r.lender.rating) := by
  refine ⟨?_, ?_, ?_⟩
  · simp [filteredRecommendations, filterKeeps]
  · intro r
    simp [filteredRecommendations, filterKeeps, List.mem_filter]
  · intro r
    simp [filteredRecommendations, filterKeeps, List.mem_filter]

/-- C9: the recommendation list is independent of the submitted loan application -
any two applications receive identical lists: the same four lenders with ids
1 through 4, the same matchScores, verdicts, EMIs and totalInterest values. -/
theorem fetch_independent_of_application (a b : LoanApplication) :
    fetchRecommendations a = fetchRecommendations b ∧
      (fetchRecommendations a).map (fun r => r.lender.id) = ["1", "2", "3", "4"] ∧
      (fetchRecommendations a).map (fun r => r.matchScore) = [92, 85, 78, 65] ∧
      (fetchRecommendations a).map (fun r => r.eligibilityStatus) =
        [Verdict.eligible, Verdict.eligible, Verdict.eligible,
          Verdict.partiallyEligible] ∧
      (fetchRecommendations a).map (fun r => r.estimatedEMI) =
        [12458, 13250, 15123, 16890] ∧
      (fetchRecommendations a).map (fun r => r.totalInterest) =
        [148960, 165000, 225840, 208040] := by
  exact ⟨rfl, rfl, rfl, rfl, rfl, rfl⟩

/-- C10: the apply-to-lender action is disabled exactly when the recommendation's
eligibility status is `not_eligible`; it is enabled for eligible and partially
eligible recommendations. -/
theorem applyDisabled_iff_not_eligible (rec : LoanRecommendation) :
    (applyDisabled rec = true ↔ rec.eligibilityStatus = Verdict.notEligible) ∧
      (rec.eligibilityStatus = Verdict.eligible ∨
        rec.eligibilityStatus = Verdict.partiallyEligible →
          applyDisabled rec = false) := by
  cases h : rec.eligibilityStatus <;> simp [applyDisabled, h]

/-- C5: `classify` yields `eligible` exactly when all four eligibility predicates
hold together with the amount-range and term checks; it yields `not_eligible`
whenever at least three of the four predicates fail; and on the Example 2 inputs
the verdict is `not_eligible` with all three blocking factors among the reasons. -/
theorem classify_policy :
    (∀ p o,
      ((classify p o).1 = Verdict.eligible ↔
        (predCredit p o && predIncome p o && predAge p o && predEmployment p o &&
          amountInRange p o && termOk p o) = true) ∧
      (3 ≤ failCount p o → (classify p o).1 = Verdict.notEligible)) ∧
    (classify exProfile2 exOffer2).1 = Verdict.notEligible ∧
    Reason.creditFail ∈ (classify exProfile2 exOffer2).2 ∧
    Reason.incomeFail ∈ (classify exProfile2 exOffer2).2 ∧
    Reason.employmentFail ∈ (classify exProfile2 exOffer2).2 := by
  refine ⟨fun p o => ?_, by decide, by decide, by decide, by decide⟩
  cases hc : predCredit p o <;> cases hi : predIncome p o <;>
    cases ha : predAge p o <;> cases he : predEmployment p o <;>
      cases hr : amountInRange p o <;> cases ht : termOk p o <;>
        simp [classify, classifyVerdict, failCount, hc, hi, ha, he, hr, ht]

/-- C8: every Recommendation produced by the engine carries a non-empty reason
list; an eligible verdict comes with at least one positive reason and a not fully
eligible verdict with at least one blocking reason. -/
theorem scoreOne_reasons_invariant (p : BorrowerProfile) (minR maxR : ℚ)
    (o : Lender) :
    (scoreOne p minR maxR o).reasons ≠ [] ∧
      ((scoreOne p minR maxR o).eligibilityStatus = Verdict.eligible →
        ∃ x ∈ (scoreOne p minR maxR o).reasons, x.isBlocking = false) ∧
      ((scoreOne p minR maxR o).eligibilityStatus ≠ Verdict.eligible →
        ∃ x ∈ (scoreOne p minR maxR o).reasons, x.isBlocking = true) := by
  cases hc : predCredit p o <;> cases hi : predIncome p o <;>
    cases ha : predAge p o <;> cases he : predEmployment p o <;>
      cases hr : amountInRange p o <;> cases ht : termOk p o <;>
        simp [scoreOne, reasonsFor, classifyVerdict, failCount, hc, hi, ha, he,
          hr, ht, Reason.isBlocking]

/-- Key amortization inequality: for a positive monthly rate the interest factor
beats the principal, `(1+r)^n - 1 < n * r * (1+r)^n`. -/
theorem geom_bound (r : ℚ) (n : ℕ) (hr : 0 < r) (hn : 0 < n) :
    (1 + r) ^ n - 1 < n * (r * (1 + r) ^ n) := by
  have hx : (1 : ℚ) < 1 + r := by linarith
  have hsum : (∑ i ∈ Finset.range n, (1 + r) ^ i) < n * (1 + r) ^ n := by
    calc (∑ i ∈ Finset.range n, (1 + r) ^ i)
        < ∑ _i ∈ Finset.range n, (1 + r) ^ n := by
          apply Finset.sum_lt_sum_of_nonempty (Finset.nonempty_range_iff.2 hn.ne')
          intro i hi
          exact pow_lt_pow_right₀ hx (Finset.mem_range.1 hi)
      _ = n * (1 + r) ^ n := by
          simp [Finset.sum_const, Finset.card_range, nsmul_eq_mul]
  have hgeom : (∑ i ∈ Finset.range n, (1 + r) ^ i) * r = (1 + r) ^ n - 1 := by
    simpa using geom_sum_mul (1 + r) n
  calc (1 + r) ^ n - 1 = (∑ i ∈ Finset.range n, (1 + r) ^ i) * r := hgeom.symm
    _ < (n * (1 + r) ^ n) * r := mul_lt_mul_of_pos_right hsum hr
    _ = n * (r * (1 + r) ^ n) := by ring

/-- C3: for every valid principal, rate and term, the produced figures satisfy
`totalInterest = EMI * n - P` (within tolerance 1e-6; the equality is in fact
exact), `totalInterest >= 0`, and `EMI * n >= P`, strictly when the rate is
nonzero. -/
theorem emi_totalInterest_sound (P r : ℚ) (n : ℕ) (hP : 0 < P) (hn : 0 < n)
    (hr : 0 ≤ r) :
    |totalInterestOf P r n - (emi P r n * (n : ℚ) - P)| ≤ 1 / 1000000 ∧
      0 ≤ totalInterestOf P r n ∧
      P ≤ emi P r n * (n : ℚ) ∧
      (r ≠ 0 → P < emi P r n * (n : ℚ)) := by
  have key : P ≤ emi P r n * (n : ℚ) ∧ (r ≠ 0 → P < emi P r n * (n : ℚ)) := by
    rcases eq_or_lt_of_le hr with h0 | hpos
    · have hemi : emi P r n = P / n := by rw [emi, if_pos h0.symm]
      have hn' : (n : ℚ) ≠ 0 := Nat.cast_ne_zero.2 hn.ne'
      refine ⟨?_, fun hne => absurd h0.symm hne⟩
      rw [hemi, div_mul_cancel₀ _ hn']
    · have hx : (1 : ℚ) < 1 + r := by linarith
      have hD : 0 < (1 + r) ^ n - 1 := by
        have := one_lt_pow₀ hx hn.ne'
        linarith
      have hkey := geom_bound r n hpos hn
      have hr0 : r ≠ 0 := ne_of_gt hpos
      have hstrict : P < emi P r n * (n : ℚ) := by
        rw [emi, if_neg hr0, div_mul_eq_mul_div, lt_div_iff₀ hD]
        nlinarith [mul_lt_mul_of_pos_left hkey hP]
      exact ⟨le_of_lt hstrict, fun _ => hstrict⟩
  have hTI : totalInterestOf P r n = emi P r n * (n : ℚ) - P := by
    rw [totalInterestOf, max_eq_right]
    linarith [key.1]
  refine ⟨by rw [hTI, sub_self, abs_zero]; norm_num,
    by rw [hTI]; linarith [key.1], key.1, key.2⟩

/-- Witness for C3 at P = 1000, r = 1/10, n = 2. -/
theorem emi_totalInterest_sound_witness :
    0 < (1000 : ℚ) ∧ 0 < 2 ∧ (0 : ℚ) ≤ 1 / 10 ∧
      (|totalInterestOf 1000 (1 / 10) 2 -
          (emi 1000 (1 / 10) 2 * ((2 : ℕ) : ℚ) - 1000)| ≤ 1 / 1000000 ∧
        0 ≤ totalInterestOf 1000 (1 / 10) 2 ∧
        1000 ≤ emi 1000 (1 / 10) 2 * ((2 : ℕ) : ℚ) ∧
        ((1 / 10 : ℚ) ≠ 0 → 1000 < emi 1000 (1 / 10) 2 * ((2 : ℕ) : ℚ))) :=
  ⟨by norm_num, by norm_num, by norm_num,
    emi_totalInterest_sound 1000 (1 / 10) 2 (by norm_num) (by norm_num)
      (by norm_num)⟩

/-- C4 counterexample: on the Example 1 inputs the engine's verdict is indeed
eligible, but the estimated EMI is not approximately 15776 nor the total interest
approximately 67936 (reading approximately as within one rupee): the exact EMI is
about 15783.77. -/
theorem example1_claimed_figures_false :
    ¬ (exRec1.eligibilityStatus = Verdict.eligible ∧
        15775 ≤ exRec1.estimatedEMI ∧ exRec1.estimatedEMI ≤ 15777 ∧
        67935 ≤ exRec1.totalInterest ∧ exRec1.totalInterest ≤ 67937) := by
  rintro ⟨-, -, h, -, -⟩
  have h2 : (15783 : ℚ) ≤ exRec1.estimatedEMI := by
    norm_num [exRec1, scoreOne, emi, monthlyRate, exOffer1, exProfile1]
  linarith

/-- C4 amended: on the Example 1 inputs the engine produces verdict eligible,
estimated EMI approximately 15784 and total interest approximately 68216
(each within one rupee; the exact values are about 15783.77 and 68215.67). -/
theorem example1_engine_figures :
    exRec1.eligibilityStatus = Verdict.eligible ∧
      15783 ≤ exRec1.estimatedEMI ∧ exRec1.estimatedEMI ≤ 15785 ∧
      68215 ≤ exRec1.totalInterest ∧ exRec1.totalInterest ≤ 68217 := by
  refine ⟨by decide, ?_, ?_, ?_, ?_⟩ <;>
    norm_num [exRec1, scoreOne, emi, totalInterestOf, monthlyRate, exOffer1,
      exProfile1, max_def]
